import Mathlib

/-!
Verification of the orchestration core of `kineticsTools/ipdSummary.py`.

The file embeds, as executable Lean definitions, the parts of
`src/kineticsTools/ipdSummary.py` that the claims are about:

* the chunk-enqueue loop of `KineticsToolsRunner._mainLoop` (lines 553-561),
  which threads the `workChunkCounter` through the nested window/chunk loops;
* the sentinel enqueue and the shutdown joins (lines 563-577);
* the worker-count normalisation of `_launchSlaveProcesses` (lines 411-424);
* `KineticsToolsRunner.validateArgs` (lines 320-340);
* the try/finally of `KineticsToolsRunner.run` (lines 378-388);
* the supervisor `monitorChildProcesses` (lines 580-605).

`ReferenceUtils.enumerateChunks` is imported by the source but its code is not
part of this repository snapshot; it is modelled from the spec (section 4.1)
and clearly marked as such.
-/

namespace IpdSummary

/-- A reference window descriptor as consumed by the main loop: sequence id,
start offset and end offset.  (`end` is a Lean keyword, hence `end_`.) -/
structure RefWindow where
  refId : Nat
  start : Nat
  end_ : Nat
  deriving Repr, DecidableEq

/-- A work chunk: a sub-range of one window, at most one stride long. -/
structure WorkChunk where
  refId : Nat
  start : Nat
  end_ : Nat
  deriving Repr, DecidableEq

/-- Modelled from the spec: `ReferenceUtils.enumerateChunks` is called by
`_mainLoop` (line 558) but its source is not under `src/`.  Spec section 4.1:
a window of length `L` is split into `⌈L/stride⌉` chunks covering
`[0,stride), [stride,2*stride), ...`, the final chunk truncated to the
window's end; a degenerate window (`L = 0`) yields zero chunks. -/
def enumerateChunks (stride : Nat) (w : RefWindow) : List WorkChunk :=
  (List.range ((w.end_ - w.start + stride - 1) / stride)).map fun i =>
    { refId := w.refId
      start := w.start + i * stride
      end_ := min w.end_ (w.start + (i + 1) * stride) }

/-- Embeds the inner loop of `_mainLoop` (lines 558-561): for each chunk of
the current window, `put((workChunkCounter, chunk))` then
`workChunkCounter += 1`.  Returns the enqueued pairs together with the
counter value after the loop. -/
def putChunksInner (counter : Nat) : List WorkChunk → List (Nat × WorkChunk) × Nat
  | [] => ([], counter)
  | c :: cs =>
    let rest := putChunksInner (counter + 1) cs
    ((counter, c) :: rest.1, rest.2)

/-- Embeds the outer loop of `_mainLoop` (lines 556-561): iterate over the
reference windows, enqueueing the chunks of each while threading
`workChunkCounter`. -/
def putChunksOuter (stride : Nat) : List RefWindow → Nat → List (Nat × WorkChunk) × Nat
  | [], counter => ([], counter)
  | w :: ws, counter =>
    let inner := putChunksInner counter (enumerateChunks stride w)
    let rest := putChunksOuter stride ws inner.2
    (inner.1 ++ rest.1, rest.2)

/-- The full sequence of `(index, chunk)` pairs placed on the work queue by
`_mainLoop`, starting from `workChunkCounter = 0` (line 553). -/
def enqueuedChunks (stride : Nat) (windows : List RefWindow) : List (Nat × WorkChunk) :=
  (putChunksOuter stride windows 0).1

/-- The spec's total chunk count: the sum over windows of `⌈L/stride⌉`
(written with the usual natural-number ceiling `(L + stride - 1) / stride`). -/
def totalChunks (stride : Nat) (windows : List RefWindow) : Nat :=
  (windows.map (fun w => (w.end_ - w.start + stride - 1) / stride)).sum

theorem putChunksInner_map_fst (cs : List WorkChunk) : ∀ counter : Nat,
    ((putChunksInner counter cs).1.map Prod.fst = List.range' counter cs.length) ∧
      (putChunksInner counter cs).2 = counter + cs.length := by
  induction cs with
  | nil => intro counter; simp [putChunksInner]
  | cons c cs ih =>
    intro counter
    obtain ⟨h1, h2⟩ := ih (counter + 1)
    refine ⟨?_, ?_⟩
    · simp [putChunksInner, h1, List.range'_succ]
    · simp [putChunksInner, h2]; omega

theorem putChunksOuter_map_fst (stride : Nat) (windows : List RefWindow) :
    ∀ counter : Nat,
    ((putChunksOuter stride windows counter).1.map Prod.fst =
      List.range' counter (totalChunks stride windows)) ∧
      (putChunksOuter stride windows counter).2 =
        counter + totalChunks stride windows := by
  induction windows with
  | nil => intro counter; simp [putChunksOuter, totalChunks]
  | cons w ws ih =>
    intro counter
    obtain ⟨hin1, hin2⟩ := putChunksInner_map_fst (enumerateChunks stride w) counter
    have hlen : (enumerateChunks stride w).length =
        (w.end_ - w.start + stride - 1) / stride := by
      simp [enumerateChunks]
    rw [hlen] at hin1 hin2
    obtain ⟨hrec1, hrec2⟩ := ih (counter + (w.end_ - w.start + stride - 1) / stride)
    have htot : totalChunks stride (w :: ws) =
        totalChunks stride ws + (w.end_ - w.start + stride - 1) / stride := by
      simp [totalChunks]; omega
    constructor
    · simp only [putChunksOuter, List.map_append, hin1, hin2, hrec1, htot]
      exact List.range'_append_1 counter _ _
    · simp only [putChunksOuter, hin2, hrec2, htot]
      omega

/-- Claim C2: for every sequence of reference windows and every (positive)
stride, the chunk indices attached to the enqueued work chunks are exactly
the contiguous range `[0, totalChunks)` in enqueue order, with
`totalChunks = Σ ⌈Lᵢ/stride⌉` over the windows' lengths `Lᵢ`: the counter
starts at 0 and increases by exactly 1 per enqueued chunk. -/
theorem chunk_indices_contiguous (stride : Nat) (windows : List RefWindow)
    (_hstride : 0 < stride) :
    (enqueuedChunks stride windows).map Prod.fst =
      List.range (totalChunks stride windows) := by
  rw [List.range_eq_range']
  exact (putChunksOuter_map_fst stride windows 0).1

/-- Witness for C2, on the spec's own scenario: one window of length 2500 at
stride 1000 yields three chunks with indices 0, 1, 2. -/
theorem chunk_indices_contiguous_witness :
    (enqueuedChunks 1000 [⟨0, 0, 2500⟩]).map Prod.fst = List.range 3 :=
  chunk_indices_contiguous 1000 [⟨0, 0, 2500⟩] (by decide)

/-! ## The supervisor: `monitorChildProcesses` (lines 580-605)

A monitored child process is observed through two attributes,
`is_alive()` and `exitcode`.  In `multiprocessing`, `exitcode` is `None`
while the process is still running, the exit code once it has exited, and
negative (`-N`) when the process was killed by signal `N`. -/

/-- The observable state of one monitored child process. -/
structure Child where
  alive : Bool
  exitcode : Option Int
  deriving Repr, DecidableEq

/-- Python truthiness filter of line 591: `p.exitcode for p in children if
p.exitcode` keeps an exit code iff it is neither `None` nor `0`. -/
def truthyExitcode : Option Int → Option Int
  | none => none
  | some e => if e = 0 then none else some e

/-- Line 591: `nonzero_exits = [p.exitcode for p in children if p.exitcode]`. -/
def nonzeroExits (children : List Child) : List Int :=
  children.filterMap fun p => truthyExitcode p.exitcode

/-- Line 590: `all_exited = all(not p.is_alive() for p in children)`. -/
def allExited (children : List Child) : Bool :=
  children.all fun p => !p.alive

/-- What one iteration of the `while True` loop of `monitorChildProcesses`
does.  `exitProcess code terminated` is the branch of lines 592-602: call
`terminate()` on every still-alive child, then `os._exit(code)` — the whole
process exits with `code` and control never returns to any caller.
`ret0` is line 604: `return 0` to the caller.  `sleep1` is line 605:
`time.sleep(1)`, then the loop polls again one time unit later. -/
inductive PollStep where
  | exitProcess (code : Int) (terminated : List Child)
  | ret0
  | sleep1
  deriving Repr, DecidableEq

/-- One poll iteration of `monitorChildProcesses` (lines 589-605) over a
snapshot of the children's states. -/
def monitorPollStep (children : List Child) : PollStep :=
  let all_exited := allExited children
  match nonzeroExits children with
  | exitcode :: _ =>
    PollStep.exitProcess exitcode (children.filter fun p => p.alive)
  | [] =>
    if all_exited then PollStep.ret0 else PollStep.sleep1

/-- Outcome of running the supervisor loop against a schedule of child
states.  `exited code terminated tick`: at poll tick `tick` the supervisor
called `terminate()` on `terminated` and then `os._exit(code)` (the process
exits; the orchestrator's remaining steps never run).  `returned v tick`:
at tick `tick` the supervisor returned `v` to its caller (line 604 returns
0) having terminated nothing. -/
inductive MonitorOutcome where
  | exited (code : Int) (terminated : List Child) (tick : Nat)
  | returned (value : Int) (tick : Nat)
  deriving Repr, DecidableEq

/-- The `while True` loop of `monitorChildProcesses`, run against a schedule
`sched` giving the children's states at each poll tick (`time.sleep(1)`
separates consecutive ticks).  `fuel` bounds the number of iterations
modelled; `none` means the loop was still polling when the fuel ran out. -/
def monitorRun (sched : Nat → List Child) : Nat → Nat → Option MonitorOutcome
  | 0, _ => none
  | fuel + 1, t =>
    match monitorPollStep (sched t) with
    | PollStep.exitProcess code terminated =>
      some (MonitorOutcome.exited code terminated t)
    | PollStep.ret0 => some (MonitorOutcome.returned 0 t)
    | PollStep.sleep1 => monitorRun sched fuel (t + 1)

/-- Line 577 of `_mainLoop`: on the success path the main loop returns 0,
which `run` and `start` propagate as the run's exit status. -/
def mainLoopReturn : Int := 0

theorem monitorPollStep_of_nonzero {children : List Child}
    (h : nonzeroExits children ≠ []) :
    monitorPollStep children =
      PollStep.exitProcess (nonzeroExits children).headI
        (children.filter fun p => p.alive) := by
  unfold monitorPollStep
  cases hc : nonzeroExits children with
  | nil => exact absurd hc h
  | cons e rest => simp

theorem monitorRun_exits_at (sched : Nat → List Child) :
    ∀ (d fuel t0 : Nat),
      (∀ s, s < d → monitorPollStep (sched (t0 + s)) = PollStep.sleep1) →
      nonzeroExits (sched (t0 + d)) ≠ [] →
      d < fuel →
      monitorRun sched fuel t0 =
        some (MonitorOutcome.exited (nonzeroExits (sched (t0 + d))).headI
          ((sched (t0 + d)).filter fun p => p.alive) (t0 + d)) := by
  intro d
  induction d with
  | zero =>
    intro fuel t0 hsleep hnz hfuel
    cases fuel with
    | zero => omega
    | succ fuel =>
      have hnz' : nonzeroExits (sched t0) ≠ [] := by rwa [Nat.add_zero] at hnz
      simp only [monitorRun, monitorPollStep_of_nonzero hnz', Nat.add_zero]
  | succ d ih =>
    intro fuel t0 hsleep hnz hfuel
    cases fuel with
    | zero => omega
    | succ fuel =>
      have h0 : monitorPollStep (sched t0) = PollStep.sleep1 := by
        have h := hsleep 0 (by omega)
        rwa [Nat.add_zero] at h
      have hs' : ∀ s, s < d → monitorPollStep (sched (t0 + 1 + s)) = PollStep.sleep1 := by
        intro s hs
        have h2 : t0 + 1 + s = t0 + (s + 1) := by omega
        rw [h2]
        exact hsleep (s + 1) (by omega)
      have h3 : t0 + 1 + d = t0 + (d + 1) := by omega
      have hn' : nonzeroExits (sched (t0 + 1 + d)) ≠ [] := by rw [h3]; exact hnz
      have hmain := ih fuel (t0 + 1) hs' hn' (by omega)
      rw [h3] at hmain
      simp only [monitorRun, h0]
      exact hmain

theorem monitorPollStep_allzero {children : List Child}
    (h : ∀ p ∈ children, p.alive = false ∧ p.exitcode = some 0) :
    monitorPollStep children = PollStep.ret0 := by
  have hnz : nonzeroExits children = [] := by
    simp only [nonzeroExits, List.filterMap_eq_nil_iff]
    intro p hp
    rw [(h p hp).2]
    simp [truthyExitcode]
  have hall : allExited children = true := by
    simp only [allExited, List.all_eq_true]
    intro p hp
    simp [(h p hp).1]
  unfold monitorPollStep
  rw [hnz, hall]
  rfl

theorem monitorRun_returns_at (sched : Nat → List Child) :
    ∀ (d fuel t0 : Nat),
      (∀ s, s < d → monitorPollStep (sched (t0 + s)) = PollStep.sleep1) →
      monitorPollStep (sched (t0 + d)) = PollStep.ret0 →
      d < fuel →
      monitorRun sched fuel t0 = some (MonitorOutcome.returned 0 (t0 + d)) := by
  intro d
  induction d with
  | zero =>
    intro fuel t0 hsleep hret hfuel
    cases fuel with
    | zero => omega
    | succ fuel =>
      have hret' : monitorPollStep (sched t0) = PollStep.ret0 := by
        rwa [Nat.add_zero] at hret
      simp only [monitorRun, hret', Nat.add_zero]
  | succ d ih =>
    intro fuel t0 hsleep hret hfuel
    cases fuel with
    | zero => omega
    | succ fuel =>
      have h0 : monitorPollStep (sched t0) = PollStep.sleep1 := by
        have h := hsleep 0 (by omega)
        rwa [Nat.add_zero] at h
      have hs' : ∀ s, s < d → monitorPollStep (sched (t0 + 1 + s)) = PollStep.sleep1 := by
        intro s hs
        have h2 : t0 + 1 + s = t0 + (s + 1) := by omega
        rw [h2]
        exact hsleep (s + 1) (by omega)
      have h3 : t0 + 1 + d = t0 + (d + 1) := by omega
      have hr' : monitorPollStep (sched (t0 + 1 + d)) = PollStep.ret0 := by
        rw [h3]; exact hret
      have hmain := ih fuel (t0 + 1) hs' hr' (by omega)
      rw [h3] at hmain
      simp only [monitorRun, h0]
      exact hmain

theorem nonzeroExits_ne_zero {children : List Child} {e : Int}
    (h : e ∈ nonzeroExits children) : e ≠ 0 := by
  simp only [nonzeroExits, List.mem_filterMap] at h
  obtain ⟨p, hp, he⟩ := h
  cases hx : p.exitcode with
  | none => rw [hx] at he; simp [truthyExitcode] at he
  | some v =>
    rw [hx] at he
    by_cases hv : v = 0
    · simp [truthyExitcode, hv] at he
    · simp [truthyExitcode, hv] at he
      omega

/-- Claim C1: when any monitored child has exited with a nonzero code, the
supervisor terminates every still-alive monitored process (the failed child,
having exited, is not among them) and exits the whole run with the first
observed nonzero child exit code (`nonzero_exits[0]`, passed to
`os._exit`); on the success path `_mainLoop` returns 0 as the run's exit
code. -/
theorem failfast_exit_status :
    (∀ children : List Child, nonzeroExits children ≠ [] →
      monitorPollStep children =
        PollStep.exitProcess (nonzeroExits children).headI
          (children.filter fun p => p.alive) ∧
        ∀ p ∈ children, p.alive = true → p ∈ children.filter fun q => q.alive) ∧
    mainLoopReturn = 0 := by
  refine ⟨fun children hnz => ⟨monitorPollStep_of_nonzero hnz, ?_⟩, rfl⟩
  intro p hp halive
  simp [List.mem_filter, hp, halive]

/-- Witness for C1: child 0 exited with code 2, child 1 still alive; the
supervisor terminates the alive child and exits the run with code 2. -/
theorem failfast_exit_status_witness :
    monitorPollStep [⟨false, some 2⟩, ⟨true, none⟩] =
      PollStep.exitProcess 2 [⟨true, none⟩] :=
  (failfast_exit_status.1 [⟨false, some 2⟩, ⟨true, none⟩] (by decide)).1

/-- Claim C8: the supervisor polls every monitored process once per fixed
interval of one time unit (`time.sleep(1)` between iterations); if the
polls before tick `t` see no failure and at tick `t` some child has a
nonzero exit code, the supervisor acts at tick `t` itself — within one poll
interval — terminating every still-alive child and exiting the run with the
triggering (first observed nonzero) code. -/
theorem supervisor_reacts_within_one_poll (sched : Nat → List Child)
    (t fuel : Nat)
    (hsleep : ∀ s, s < t → monitorPollStep (sched s) = PollStep.sleep1)
    (hnz : nonzeroExits (sched t) ≠ [])
    (hfuel : t < fuel) :
    monitorRun sched fuel 0 =
      some (MonitorOutcome.exited (nonzeroExits (sched t)).headI
        ((sched t).filter fun p => p.alive) t) := by
  have h := monitorRun_exits_at sched t fuel 0
    (by intro s hs; rw [Nat.zero_add]; exact hsleep s hs)
    (by rw [Nat.zero_add]; exact hnz) hfuel
  rwa [Nat.zero_add] at h

/-- Witness for C8: a single child that has already exited with code 3 at
tick 0; the supervisor exits with code 3 at tick 0. -/
theorem supervisor_reacts_within_one_poll_witness :
    monitorRun (fun _ => [⟨false, some 3⟩]) 1 0 =
      some (MonitorOutcome.exited 3 [] 0) :=
  supervisor_reacts_within_one_poll (fun _ => [⟨false, some 3⟩]) 0 1
    (fun s hs => absurd hs (Nat.not_lt_zero s)) (by decide) (by decide)

/-- Claim C9: if every monitored process has exited and all exit codes are
0, the supervisor returns the value 0 to its caller (line 604, `return 0`);
the `returned` outcome performs no `terminate()` call, by the shape of the
branch (lines 603-604). -/
theorem supervisor_clean_return (sched : Nat → List Child) (t fuel : Nat)
    (hsleep : ∀ s, s < t → monitorPollStep (sched s) = PollStep.sleep1)
    (hz : ∀ p ∈ sched t, p.alive = false ∧ p.exitcode = some 0)
    (hfuel : t < fuel) :
    monitorRun sched fuel 0 = some (MonitorOutcome.returned 0 t) := by
  have h := monitorRun_returns_at sched t fuel 0
    (by intro s hs; rw [Nat.zero_add]; exact hsleep s hs)
    (by rw [Nat.zero_add]; exact monitorPollStep_allzero hz) hfuel
  rwa [Nat.zero_add] at h

/-- Witness for C9: one child, exited with code 0; the supervisor returns 0
at tick 0. -/
theorem supervisor_clean_return_witness :
    monitorRun (fun _ => [⟨false, some 0⟩]) 1 0 =
      some (MonitorOutcome.returned 0 0) :=
  supervisor_clean_return (fun _ => [⟨false, some 0⟩]) 0 1
    (fun s hs => absurd hs (Nat.not_lt_zero s)) (by decide) (by decide)

/-- Claim C10: whenever any child shows a truthy (nonzero) exit code —
negative codes from signal kills included, treated identically — the
supervisor's poll takes the `os._exit` branch (`PollStep.exitProcess`),
terminating the surviving children and exiting the entire process with a
nonzero code; this branch never returns control to the caller, so the
orchestrator's remaining drain and join steps never run on this path. -/
theorem supervisor_failure_never_returns :
    ∀ children : List Child,
      (∃ p ∈ children, ∃ e : Int, p.exitcode = some e ∧ e ≠ 0) →
      ∃ code kills,
        monitorPollStep children = PollStep.exitProcess code kills ∧
          code ≠ 0 ∧ kills = children.filter fun p => p.alive := by
  intro children h
  obtain ⟨p, hp, e, he, hne⟩ := h
  have hmem : e ∈ nonzeroExits children := by
    simp only [nonzeroExits, List.mem_filterMap]
    exact ⟨p, hp, by rw [he]; simp [truthyExitcode, hne]⟩
  have hnz : nonzeroExits children ≠ [] := by
    intro hc
    rw [hc] at hmem
    exact absurd hmem (List.not_mem_nil e)
  refine ⟨(nonzeroExits children).headI, children.filter fun q => q.alive,
    monitorPollStep_of_nonzero hnz, ?_, rfl⟩
  have hh : (nonzeroExits children).headI ∈ nonzeroExits children := by
    cases hc : nonzeroExits children with
    | nil => exact absurd hc hnz
    | cons a rest => simp
  exact nonzeroExits_ne_zero hh

/-- Witness for C10: a child killed by a signal (exitcode −6) triggers the
`os._exit` branch with the nonzero code −6. -/
theorem supervisor_failure_never_returns_witness :
    ∃ code kills,
      monitorPollStep [⟨false, some (-6)⟩, ⟨true, none⟩] =
        PollStep.exitProcess code kills ∧
        code ≠ 0 ∧
        kills = ([⟨false, some (-6)⟩, ⟨true, none⟩] : List Child).filter
          fun p => p.alive :=
  supervisor_failure_never_returns [⟨false, some (-6)⟩, ⟨true, none⟩]
    ⟨⟨false, some (-6)⟩, by decide, -6, by decide, by decide⟩

/-! ## The orchestrator: `_launchSlaveProcesses` and `_mainLoop`
(lines 402-450 and 540-577)

The orchestrator's straight-line behaviour is embedded as the trace of the
observable actions it performs, in program order.  The event vocabulary
also names two actions the orchestrator could in principle perform but the
source never does — an explicit shutdown call to the writer
(`stopWriter`) and a put onto the results queue (`putResult`) — so that
their absence is statable: lines 563-577 only put `None` sentinels on the
work queue and then join. -/

/-- An observable action of the orchestrator.
`startWorker i` — `p.start()` for the i-th `KineticWorkerProcess` (line 438);
`startWriter` — `self._resultCollectorProcess.start()` (line 444);
`startSupervisor` — `self.monitoringThread.start()` (line 450);
`putWork item` — `self._workQueue.put(item)`, where the item is either a
`(workChunkCounter, chunk)` pair (line 560) or the `None` sentinel
(line 565);
`putResult` — a put onto `self._resultsQueue` (the orchestrator never
performs one);
`joinWorker i` — `w.join()` (line 568);
`joinSupervisor` — `self.monitoringThread.join()` (line 572);
`joinResultQueue` — `self._resultsQueue.join()` (line 573), the wait for
every result item to be acknowledged;
`joinWriter` — `self._resultCollectorProcess.join()` (line 574);
`stopWriter` — an explicit shutdown call to the writer process (the
orchestrator never performs one);
`closeAlignments` — `self.alignments.close()` (line 576). -/
inductive Event where
  | startWorker (i : Nat)
  | startWriter
  | startSupervisor
  | putWork (item : Option (Nat × WorkChunk))
  | putResult
  | joinWorker (i : Nat)
  | joinSupervisor
  | joinResultQueue
  | joinWriter
  | stopWriter
  | closeAlignments
  deriving Repr, DecidableEq

/-- Lines 416-418 of `_launchSlaveProcesses`: `if self.options.numWorkers <
1: self.options.numWorkers = availableCpus` — a worker count below 1 is
replaced by the number of available CPUs, with no error raised. -/
def resolveNumWorkers (numWorkers availableCpus : Int) : Int :=
  if numWorkers < 1 then availableCpus else numWorkers

/-- The actions of `_launchSlaveProcesses` (lines 428-450) after the worker
count has been resolved: start each of the `numWorkers` worker processes in
order, then the writer, then the supervisor thread. -/
def launchEvents (numWorkers : Nat) : List Event :=
  (List.range numWorkers).map Event.startWorker ++
    [Event.startWriter, Event.startSupervisor]

/-- The action trace of `_mainLoop` from the spawn of the slave processes
(line 540) to `return 0` (line 577): launch, enqueue every chunk with its
counter value, enqueue one `None` sentinel per worker
(`for i in range(self.args.numWorkers)` — `self.options` and `self.args`
name the same namespace object, so this is the resolved worker count, the
number of workers launched), join each worker, join the supervisor thread,
join the results queue, join the writer, close the alignments. -/
def mainLoopEvents (stride : Nat) (windows : List RefWindow)
    (numWorkers : Nat) : List Event :=
  launchEvents numWorkers ++
    (enqueuedChunks stride windows).map (fun p => Event.putWork (some p)) ++
    (List.range numWorkers).map (fun _ => Event.putWork none) ++
    (List.range numWorkers).map Event.joinWorker ++
    [Event.joinSupervisor, Event.joinResultQueue, Event.joinWriter,
      Event.closeAlignments]

/-- Tests whether an event is the enqueue of a `None` shutdown sentinel. -/
def isPutSentinel : Event → Bool
  | Event.putWork none => true
  | _ => false

/-- Tests whether an event is the enqueue of anything on the work queue. -/
def isPutWork : Event → Bool
  | Event.putWork _ => true
  | _ => false

/-- Tests whether an event is the start of a worker process. -/
def isStartWorker : Event → Bool
  | Event.startWorker _ => true
  | _ => false

/-- Tests whether an event is one of the orchestrator's shutdown waits. -/
def isShutdownWait : Event → Bool
  | Event.joinWorker _ => true
  | Event.joinSupervisor => true
  | Event.joinResultQueue => true
  | Event.joinWriter => true
  | _ => false

/-- Tests whether an event is an explicit shutdown call to the writer. -/
def isStopWriter : Event → Bool
  | Event.stopWriter => true
  | _ => false

/-- Tests whether an event is a put onto the results queue. -/
def isPutResult : Event → Bool
  | Event.putResult => true
  | _ => false

/-- Claim C3: the orchestrator enqueues exactly `numWorkers` shutdown
sentinels — the number of worker processes it launched — and they are the
only non-chunk items ever placed on the work queue, all of them after every
work chunk: the work-queue puts are exactly the chunks in counter order
followed by `numWorkers` `None` sentinels. -/
theorem sentinels_match_worker_count (stride : Nat) (windows : List RefWindow)
    (numWorkers : Nat) :
    (mainLoopEvents stride windows numWorkers).countP isPutSentinel =
        numWorkers ∧
      (mainLoopEvents stride windows numWorkers).countP isStartWorker =
        numWorkers ∧
      (mainLoopEvents stride windows numWorkers).filter isPutWork =
        (enqueuedChunks stride windows).map (fun p => Event.putWork (some p))
          ++ List.replicate numWorkers (Event.putWork none) := by
  refine ⟨?_, ?_, ?_⟩
  · simp [mainLoopEvents, launchEvents, Function.comp_def, isPutSentinel,
      List.countP_cons, List.countP_map, List.countP_replicate,
      List.map_const']
  · simp [mainLoopEvents, launchEvents, Function.comp_def, isStartWorker,
      List.countP_cons, List.countP_map, List.countP_replicate,
      List.map_const']
  · simp [mainLoopEvents, launchEvents, List.append_assoc,
      List.filter_append, List.filter_map, Function.comp_def, isPutWork,
      List.map_const']

/-- Claim C4: the subsequence of shutdown waits in the orchestrator's trace
is exactly: join each worker (in launch order), then join the supervisor,
then wait for the results queue to fully drain, then join the writer. -/
theorem shutdown_wait_order (stride : Nat) (windows : List RefWindow)
    (numWorkers : Nat) :
    (mainLoopEvents stride windows numWorkers).filter isShutdownWait =
      (List.range numWorkers).map Event.joinWorker ++
        [Event.joinSupervisor, Event.joinResultQueue, Event.joinWriter] := by
  simp [mainLoopEvents, launchEvents, List.append_assoc, List.filter_append,
    List.filter_map, Function.comp_def, isShutdownWait, List.map_const']

/-- Counterexample to claim C5: in a concrete run (one window of length
2500 at stride 1000, three workers) the orchestrator makes no explicit
shutdown call to the writer — lines 567-577 only join.  The claim that the
writer terminates because of such a call is therefore false of this code. -/
theorem no_writer_shutdown_call_counterexample :
    (mainLoopEvents 1000 [⟨0, 0, 2500⟩] 3).countP isStopWriter = 0 ∧
      (mainLoopEvents 1000 [⟨0, 0, 2500⟩] 3).countP isPutResult = 0 := by
  constructor <;> rfl

/-- Claim C5 as amended: the orchestrator never makes an explicit shutdown
call to the writer and never places any item (sentinel or otherwise) on the
results queue; its only interaction with the writer's termination is to
wait — it joins the writer after the results queue fully drains, which
itself comes after all workers have joined. -/
theorem writer_shutdown_is_join_only (stride : Nat) (windows : List RefWindow)
    (numWorkers : Nat) :
    (mainLoopEvents stride windows numWorkers).countP isStopWriter = 0 ∧
      (mainLoopEvents stride windows numWorkers).countP isPutResult = 0 ∧
      (mainLoopEvents stride windows numWorkers).filter
          (fun e => e = Event.joinResultQueue || e = Event.joinWriter) =
        [Event.joinResultQueue, Event.joinWriter] := by
  refine ⟨?_, ?_, ?_⟩
  · simp [mainLoopEvents, launchEvents, Function.comp_def, isStopWriter,
      List.countP_cons, List.countP_map, List.countP_replicate,
      List.map_const']
  · simp [mainLoopEvents, launchEvents, Function.comp_def, isPutResult,
      List.countP_cons, List.countP_map, List.countP_replicate,
      List.map_const']
  · simp [mainLoopEvents, launchEvents, List.append_assoc, List.filter_append,
      List.filter_map, Function.comp_def, List.map_const']

/-! ## Argument validation: `validateArgs` (lines 320-340) and `run`
(lines 342-388) -/

/-- The fields of the parsed argument namespace that `validateArgs`,
`_launchSlaveProcesses` and the main loop's enqueue phase read.
`alignmentSetExists` is the result of `os.path.exists(self.args.alignment_set)`
(line 322); `control`, `m5Cclassifier` and `m5Cgff` are `None`-able string
options; `numWorkers`, `maxQueueSize` and `referenceStride` are the int
options of the same names. -/
structure Args where
  alignmentSetExists : Bool
  control : Option String
  identify : String
  useLDA : Bool
  m5Cclassifier : Option String
  m5Cgff : Option String
  numWorkers : Int
  maxQueueSize : Int
  referenceStride : Int
  deriving Repr, DecidableEq

/-- Embeds `KineticsToolsRunner.validateArgs` (lines 320-340).
`parser.error` aborts, modelled as `Except.error` with the message; on
success the (possibly mutated) argument namespace is returned.  Line 327:
if `--control` is truthy, `identify` is overwritten with the empty string.
Lines 329-337: `--useLDA` requires `--m5Cclassifier`, and `--m5Cgff`
requires `--useLDA`.  No other check is performed: `numWorkers`,
`maxQueueSize` and `referenceStride` are never inspected. -/
def validateArgs (a : Args) : Except String Args :=
  if !a.alignmentSetExists then
    Except.error "Input AlignmentSet file provided does not exist"
  else
    let a := if a.control.isSome then { a with identify := "" } else a
    if a.useLDA && a.m5Cclassifier.isNone then
      Except.error "Please specify a folder containing forward.csv and reverse.csv classifiers in --m5Cclassifier."
    else if a.m5Cgff.isSome && !a.useLDA then
      Except.error "m5Cgff file can only be generated in --useLDA mode."
    else
      Except.ok a

/-- An argument namespace whose stride, queue capacity and worker count are
all values the spec calls invalid (negative), and whose remaining fields
pass the checks `validateArgs` actually performs. -/
def badConfigArgs : Args :=
  { alignmentSetExists := true
    control := none
    identify := "m6A,m4C"
    useLDA := false
    m5Cclassifier := none
    m5Cgff := none
    numWorkers := -5
    maxQueueSize := -3
    referenceStride := -1000 }

/-- Counterexample to claim C6: with a negative stride, a negative queue
capacity and a negative worker count, `validateArgs` succeeds — no
configuration error is raised before process spawn; `_launchSlaveProcesses`
then silently replaces the worker count with the available CPU count (here
8) and proceeds to spawn processes. -/
theorem invalid_config_not_rejected_counterexample :
    validateArgs badConfigArgs = Except.ok badConfigArgs ∧
      resolveNumWorkers badConfigArgs.numWorkers 8 = 8 := by
  constructor <;> rfl

/-- Claim C6 as amended: `validateArgs` performs no validation of the chunk
stride, the queue capacity or the worker count — it succeeds for every
value of `numWorkers`, `maxQueueSize` and `referenceStride` (checking only
input existence and the LDA options) — and a worker count below 1 is not an
error: `_launchSlaveProcesses` replaces it with the available CPU count
before spawning, while any other count is used as given. -/
theorem config_fields_unvalidated (n q s cpus : Int) :
    validateArgs
        { badConfigArgs with
            numWorkers := n, maxQueueSize := q, referenceStride := s } =
      Except.ok
        { badConfigArgs with
            numWorkers := n, maxQueueSize := q, referenceStride := s } ∧
      resolveNumWorkers n cpus = if n < 1 then cpus else n := by
  constructor <;> rfl

/-- The observable state of a spawned child process, as `run`'s cleanup
sees it: whether `is_alive()` returns true. -/
structure ChildProc where
  alive : Bool
  deriving Repr, DecidableEq

/-- What `_mainLoop` produced when control reaches `run`'s `finally` block:
either its return value or an exception propagating out of it. -/
inductive PyResult (α : Type) where
  | ok (a : α)
  | exn (e : String)
  deriving Repr, DecidableEq

/-- Lines 384-386 of `run`: `for w in self._workers: if w.is_alive():
w.terminate()` — the list of workers that receive a `terminate()` call. -/
def terminatedWorkers (workers : List ChildProc) : List ChildProc :=
  workers.filter fun w => w.alive

/-- Embeds the try/finally of `run` (lines 378-388): whatever `_mainLoop`
did — returned a value or raised — the `finally` block terminates every
still-alive worker, and then the value or the exception propagates to the
caller unchanged.  Returns the propagated result paired with the workers
that received `terminate()`. -/
def runBody (mainLoop : PyResult Int) (workers : List ChildProc) :
    PyResult Int × List ChildProc :=
  match mainLoop with
  | PyResult.ok ret => (PyResult.ok ret, terminatedWorkers workers)
  | PyResult.exn e => (PyResult.exn e, terminatedWorkers workers)

/-- Claim C7: if an exception escapes `_mainLoop`, `run`'s `finally` block
terminates every worker process that is still alive before the exception
propagates to the caller — no live worker is left orphaned. -/
theorem exception_cleanup_terminates_workers (e : String)
    (workers : List ChildProc) :
    (runBody (PyResult.exn e) workers).1 = PyResult.exn e ∧
      ∀ w ∈ workers, w.alive = true →
        w ∈ (runBody (PyResult.exn e) workers).2 := by
  refine ⟨rfl, ?_⟩
  intro w hw halive
  simp [runBody, terminatedWorkers, List.mem_filter, hw, halive]

/-- Witness for C7: an exception with one alive and one exited worker — the
alive worker is in the terminated list and the exception propagates. -/
theorem exception_cleanup_terminates_workers_witness :
    (runBody (PyResult.exn "boom") [⟨true⟩, ⟨false⟩]).1 =
        PyResult.exn "boom" ∧
      (⟨true⟩ : ChildProc) ∈ (runBody (PyResult.exn "boom")
        [⟨true⟩, ⟨false⟩]).2 :=
  ⟨(exception_cleanup_terminates_workers "boom" [⟨true⟩, ⟨false⟩]).1,
    (exception_cleanup_terminates_workers "boom" [⟨true⟩, ⟨false⟩]).2
      ⟨true⟩ (by decide) rfl⟩

end IpdSummary
